import Mathlib

/-!
Formal model of the Tkitmaster seat-reservation server.

The definitions below are a shallow embedding of `src/server/server.js`
(the current server) together with the `RELEASE_SCRIPT` variant found in
`src/unnamed/part_001` (an earlier revision of the same server, still in
the repository).  Redis (the spec's Hot State Store, HSS) is modelled as
an association list from keys to values with optional TTLs; MongoDB (the
Durable Record Store, DRS) is a list of seat records, and the mongoose
session buffer is modelled by applying the buffered write only at the
commit point.  JavaScript strings are Lean `String`s; `parseInt` is
modelled faithfully (whitespace, sign, `0x` radix detection, longest
digit prefix, `NaN` as `none`).
-/

/-- JavaScript `String.prototype.split` with a one-character separator,
on character lists: `"".split(s)` is `[""]`, a trailing separator yields
a trailing empty group. -/
def splitChar (sep : Char) : List Char → List (List Char)
  | [] => [[]]
  | c :: rest =>
    let r := splitChar sep rest
    if c = sep then [] :: r
    else
      match r with
      | [] => [[c]]
      | g :: gs => (c :: g) :: gs

/-- JavaScript `s.split(sep)` for a one-character separator string. -/
def jsSplit (s : String) (sep : Char) : List String :=
  (splitChar sep s.data).map (fun l => String.mk l)

/-- Bool test that `pre` is a prefix of `cs` (character lists). -/
def charsStartWith : List Char → List Char → Bool
  | [], _ => true
  | _ :: _, [] => false
  | p :: ps, c :: cs => p == c && charsStartWith ps cs

/-- JavaScript `s.startsWith(pre)`. -/
def jsStartsWith (s pre : String) : Bool :=
  charsStartWith pre.data s.data

/-- One Redis entry: the stored string value plus its TTL
(`none` = persistent key, `some n` = `n` seconds remaining). -/
structure HEntry where
  val : String
  ttl : Option Nat
deriving DecidableEq, Repr

/-- The Hot State Store: an association list of Redis keys to entries.
Keys are unique in every store reachable by the operations below. -/
abbrev Store := List (String × HEntry)

/-- Redis `GET` (first binding wins; stores built by `rset`/`rdel` are
duplicate-free, so this is the unique binding). -/
def rget (s : Store) (k : String) : Option HEntry :=
  (s.find? (fun p => p.1 == k)).map (fun p => p.2)

/-- Redis `SET` (with optional `EX`): overwrites any previous binding. -/
def rset (s : Store) (k : String) (e : HEntry) : Store :=
  (k, e) :: s.filter (fun p => ¬ p.1 == k)

/-- Redis `DEL`. -/
def rdel (s : Store) (k : String) : Store :=
  s.filter (fun p => ¬ p.1 == k)

/-- `const REDIS_TTL = 300; // 5 Minutes` (server.js). -/
def REDIS_TTL : Nat := 300

/-- The `LOCK_SCRIPT` Lua script (server.js):
returns `0` if the key holds `"SOLD"`, `0` if the key exists at all,
and otherwise sets `LOCKED:{userId}` with the given TTL and returns `1`. -/
def lockScript (store : Store) (seatKey uid : String) (ttl : Nat) : Nat × Store :=
  if (rget store seatKey).map (fun e => e.val) = some "SOLD" then (0, store)
  else if (rget store seatKey).isSome then (0, store)
  else (1, rset store seatKey ⟨"LOCKED:" ++ uid, some ttl⟩)

/-- Result of `POST /api/lock`: `success` maps to HTTP 200
`{success:true}`, `unavailable` to HTTP 409 `Seat Unavailable`. -/
inductive LockResp where
  | success
  | unavailable
deriving DecidableEq, Repr

/-- `POST /api/lock` (server.js): runs `LOCK_SCRIPT` on `seat:{seatId}`
with the caller's user id and `REDIS_TTL`. -/
def apiLock (store : Store) (seatId userId : String) : LockResp × Store :=
  let r := lockScript store ("seat:" ++ seatId) userId REDIS_TTL
  if r.1 = 1 then (LockResp.success, r.2) else (LockResp.unavailable, r.2)

/-- `POST /api/release` (server.js, current revision): destructures
`{seatId, userId}` from the body (`userId` is never used) and runs an
unconditional `redisClient.del` on `seat:{seatId}`, answering 200. -/
def apiRelease (store : Store) (seatId _userId : String) : Store :=
  rdel store ("seat:" ++ seatId)

/-- The `RELEASE_SCRIPT` Lua script (src/unnamed/part_001): deletes the
key only when its value equals the given argument, else does nothing. -/
def releaseScript (store : Store) (key arg : String) : Nat × Store :=
  if (rget store key).map (fun e => e.val) = some arg then (1, rdel store key)
  else (0, store)

/-- `POST /api/release` as in src/unnamed/part_001: runs
`RELEASE_SCRIPT` on `seat:{seatId}` with argument `LOCKED:{userId}`. -/
def apiReleaseScripted (store : Store) (seatId userId : String) : Store :=
  (releaseScript store ("seat:" ++ seatId) ("LOCKED:" ++ userId)).2

/-- The rate limiter's key generator (server.js):
`req.headers['x-forwarded-for'] || req.ip`.  The header argument is
`none` when absent; the JavaScript `||` also falls through on the empty
string (falsy). -/
def keyGenerator (xff : Option String) (ip : String) : String :=
  match xff with
  | some h => if h = "" then ip else h
  | none => ip

/-- Modelled from the spec's words for comparison (claim C7): "the first
element of the forwarded-for header's comma-separated list". -/
def xffFirstElem (h : String) : String :=
  (jsSplit h ',').headD ""

example : keyGenerator (some "1.2.3.4, 5.6.7.8") "9.9.9.9" = "1.2.3.4, 5.6.7.8" := by decide
example : xffFirstElem "1.2.3.4, 5.6.7.8" = "1.2.3.4" := by decide
example : apiLock [] "A1" "7" = (LockResp.success, [("seat:A1", ⟨"LOCKED:7", some 300⟩)]) := by decide

/-- Status of a seat record in the DRS (Mongo `Seat.status`). -/
inductive SeatStatus where
  | available
  | booked
deriving DecidableEq, Repr

/-- The JavaScript status string stored in Mongo for a seat. -/
def statusStr : SeatStatus → String
  | SeatStatus.available => "available"
  | SeatStatus.booked => "booked"

/-- A DRS seat record (`models/Seat`). -/
structure SeatRec where
  seatId : String
  row : String
  number : Nat
  tier : String
  price : Nat
  status : SeatStatus
  userId : Option String
deriving DecidableEq, Repr

/-- The Durable Record Store: the Mongo `seats` collection. -/
abbrev Drs := List SeatRec

/-- `Seat.findOne({seatId})`. -/
def drsFind (d : Drs) (sid : String) : Option SeatRec :=
  d.find? (fun s => s.seatId == sid)

/-- The committed effect of `seat.status = 'booked'; seat.userId = uid;
seat.save({session})`: applied to the collection only when the mongoose
transaction commits. -/
def drsBook (d : Drs) (sid uid : String) : Drs :=
  d.map (fun s =>
    if s.seatId == sid then { s with status := SeatStatus.booked, userId := some uid } else s)

/-- `JSON.stringify(receipt)` for the receipts the server builds
(`{success: true, txId}`). -/
def stringifyReceipt (txId : String) : String :=
  "\x7b\"success\":true,\"txId\":\"" ++ txId ++ "\"\x7d"

/-- Request body of `POST /api/pay`.  A `userId` field may be present in
a client's JSON body but the handler never reads it (the user comes from
the verified JWT). -/
structure PayBody where
  idempotencyKey : String
  seatId : String
  userId : Option String
deriving DecidableEq, Repr

/-- Response of `POST /api/pay`: `ok body` is HTTP 200 with the JSON
body shown (for a cached receipt, `res.json(JSON.parse(cached))`
re-serializes to the cached string); `badLock` is HTTP 400
`Lock Expired or Stolen`; `err` is HTTP 500 `Payment Failed`. -/
inductive PayResp where
  | ok (body : String)
  | badLock
  | err
deriving DecidableEq, Repr

/-- Fault injection for the DRS steps of `POST /api/pay`: whether
`Seat.findOne`, `seat.save` or `session.commitTransaction` throws.
Redis operations are modelled as reliable. -/
structure PayFaults where
  findFails : Bool
  saveFails : Bool
  commitFails : Bool
deriving DecidableEq, Repr

/-- `POST /api/pay` (server.js).  `tokenUser` is `req.user.userId` from
the verified JWT; `txId` stands for the random id
`Math.random().toString(36).substr(2, 9)`.  The mongoose session
buffers the seat write: it reaches the collection only at
`commitTransaction`, while both `redisClient.set` calls take effect
immediately.  Any thrown error lands in the catch block, which aborts
the transaction and answers 500. -/
def apiPay (f : PayFaults) (txId tokenUser : String) (body : PayBody)
    (store : Store) (drs : Drs) : PayResp × Store × Drs :=
  let ikey := "receipt:" ++ body.idempotencyKey
  let seatKey := "seat:" ++ body.seatId
  match rget store ikey with
  | some cached => (PayResp.ok cached.val, store, drs)
  | none =>
    if ¬ (rget store seatKey).map (fun e => e.val) = some ("LOCKED:" ++ tokenUser) then
      (PayResp.badLock, store, drs)
    else if f.findFails then (PayResp.err, store, drs)
    else
      match drsFind drs body.seatId with
      | none => (PayResp.err, store, drs)
      | some seat =>
        if seat.status = SeatStatus.booked then (PayResp.err, store, drs)
        else if f.saveFails then (PayResp.err, store, drs)
        else
          let store1 := rset store seatKey ⟨"SOLD", none⟩
          if f.commitFails then (PayResp.err, store1, drs)
          else
            let drs1 := drsBook drs body.seatId tokenUser
            let receiptStr := stringifyReceipt txId
            let store2 := rset store1 ikey ⟨receiptStr, some 86400⟩
            (PayResp.ok receiptStr, store2, drs1)

/-- The ECMAScript `StrWhiteSpaceChar` set trimmed by `parseInt`:
WhiteSpace (tab, vertical tab `U+000B`, form feed `U+000C`, space,
no-break space, the Unicode space separators, BOM) together with the
line terminators (LF, CR, `U+2028`, `U+2029`). -/
def jsWhite (c : Char) : Bool :=
  c == ' ' || c == '\t' || c == '\n' || c == '\r' ||
  c == '\x0B' || c == '\x0C' ||
  c == '\u00A0' || c == '\u1680' ||
  ('\u2000' ≤ c && c ≤ '\u200A') ||
  c == '\u2028' || c == '\u2029' || c == '\u202F' || c == '\u205F' ||
  c == '\u3000' || c == '\uFEFF'

/-- Value of a digit character in radix 16 (also serves radix 10 via
`isRadixDigit`). -/
def digitVal (c : Char) : Nat :=
  if c.isDigit then c.toNat - 48
  else if 'a' ≤ c && c ≤ 'f' then c.toNat - 87
  else if 'A' ≤ c && c ≤ 'F' then c.toNat - 55
  else 0

/-- Whether `c` is a digit of the given radix (10 or 16). -/
def isRadixDigit (radix : Nat) (c : Char) : Bool :=
  if radix = 16 then c.isDigit || ('a' ≤ c && c ≤ 'f') || ('A' ≤ c && c ≤ 'F')
  else c.isDigit

/-- Optional sign at the head of the character list. -/
def stripSign (cs : List Char) : Int × List Char :=
  match cs with
  | [] => (1, [])
  | c :: r => if c = '+' then (1, r) else if c = '-' then (-1, r) else (1, c :: r)

/-- `0x` / `0X` radix detection of `parseInt` with no radix argument. -/
def stripRadix (cs : List Char) : Nat × List Char :=
  match cs with
  | c0 :: c1 :: r => if c0 = '0' ∧ (c1 = 'x' ∨ c1 = 'X') then (16, r) else (10, cs)
  | _ => (10, cs)

/-- Accumulate the value of a digit run. -/
def digitsVal (radix : Nat) (ds : List Char) : Nat :=
  ds.foldl (fun acc c => acc * radix + digitVal c) 0

/-- JavaScript `parseInt(s)` (no radix argument): strip whitespace, an
optional sign, detect a `0x`/`0X` prefix, then read the longest run of
radix digits; `none` models `NaN` (no digits at all). -/
def parseIntJS (s : String) : Option Int :=
  let cs := s.data.dropWhile jsWhite
  let sgn := stripSign cs
  let rad := stripRadix sgn.2
  let ds := rad.2.takeWhile (isRadixDigit rad.1)
  if ds.isEmpty then none else some (sgn.1 * (digitsVal rad.1 ds : Nat))

example : parseIntJS "123abc" = some 123 := by decide
example : parseIntJS "abc" = none := by decide
example : parseIntJS "+5" = some 5 := by decide
example : parseIntJS "-42x" = some (-42) := by decide
example : parseIntJS "0x1f" = some 31 := by decide
example : parseIntJS "" = none := by decide
example : parseIntJS "\x0B5" = some 5 := by decide
example : parseIntJS "\x0C5" = some 5 := by decide

/-- The `lockedBy` field of a seat view: JavaScript `null`, `NaN`, or a
number. -/
inductive LockedBy where
  | nullv
  | nan
  | num (n : Int)
deriving DecidableEq, Repr

/-- What the snapshot assigns to `lockedBy`:
`parseInt(val.split(':')[1])`. -/
def lockedByOf (p : Option Int) : LockedBy :=
  match p with
  | some n => LockedBy.num n
  | none => LockedBy.nan

/-- One element of the `GET /api/seats` response. -/
structure SeatView where
  id : String
  row : String
  number : Nat
  tier : String
  price : Nat
  state : String
  lockedBy : LockedBy
  ttl : Option Int
deriving DecidableEq, Repr

/-- The `redisData` object of `GET /api/seats` (server.js): every key
matching `seat:*`, re-keyed by `key.split(':')[1]`, with value and TTL.
JavaScript object assignment in `forEach` order means a later binding
overwrites an earlier one. -/
def redisSeatData (store : Store) : List (String × HEntry) :=
  (store.filter (fun p => jsStartsWith p.1 "seat:")).map
    (fun p => ((jsSplit p.1 ':').getD 1 "", p.2))

/-- `redisData[seatId]`: last assignment wins. -/
def lookupLast (l : List (String × HEntry)) (k : String) : Option HEntry :=
  (l.reverse.find? (fun p => p.1 == k)).map (fun p => p.2)

/-- The TTL integer `redisClient.ttl` reports for an entry:
`-1` for a persistent key. -/
def ttlInt (e : HEntry) : Int :=
  match e.ttl with
  | some n => (n : Int)
  | none => -1

/-- The per-seat mapping of `GET /api/seats` (server.js): start from the
Mongo status, then overlay the Redis entry — `"SOLD"` forces `booked`, a
value starting with `LOCKED:` forces `locked` and sets `lockedBy` and
`ttl`. -/
def seatView (store : Store) (seat : SeatRec) : SeatView :=
  let base := statusStr seat.status
  match lookupLast (redisSeatData store) seat.seatId with
  | none =>
    ⟨seat.seatId, seat.row, seat.number, seat.tier, seat.price, base, LockedBy.nullv, none⟩
  | some e =>
    if e.val = "SOLD" then
      ⟨seat.seatId, seat.row, seat.number, seat.tier, seat.price, "booked", LockedBy.nullv, none⟩
    else if jsStartsWith e.val "LOCKED:" then
      ⟨seat.seatId, seat.row, seat.number, seat.tier, seat.price, "locked",
        lockedByOf (parseIntJS ((jsSplit e.val ':').getD 1 "")), some (ttlInt e)⟩
    else
      ⟨seat.seatId, seat.row, seat.number, seat.tier, seat.price, base, LockedBy.nullv, none⟩

/-- Comparison used by `.sort({ row: 1, number: 1 })`. -/
def seatLe (a b : SeatRec) : Bool :=
  decide (a.row < b.row) || (decide (a.row = b.row) && decide (a.number ≤ b.number))

/-- Stable insertion for `sortSeats`. -/
def insertSeat (x : SeatRec) : List SeatRec → List SeatRec
  | [] => [x]
  | y :: ys => if seatLe x y then x :: y :: ys else y :: insertSeat x ys

/-- `Seat.find({}).sort({ row: 1, number: 1 })`, modelled as a stable
insertion sort by row then number. -/
def sortSeats (l : List SeatRec) : List SeatRec :=
  l.foldr insertSeat []

/-- `GET /api/seats` (server.js): the sorted DRS records, each mapped
through the Redis overlay. -/
def apiSeats (store : Store) (drs : Drs) : List SeatView :=
  (sortSeats drs).map (seatView store)

/-- The allow-list of `validateEmailDomain` (server.js). -/
def allowedDomains : List String :=
  ["gmail.com", "yahoo.com", "outlook.com", "hotmail.com", "icloud.com"]

/-- `validateEmailDomain` (server.js): `email.split('@')[1]` must be in
the allow-list; with no `'@'` the index is `undefined`, which
`includes` rejects. -/
def validateEmailDomain (email : String) : Bool :=
  match (jsSplit email '@').get? 1 with
  | some d => allowedDomains.any (fun a => a == d)
  | none => false

/-- Modelled from the claim's words for comparison (claim C8): "the part
of the email after '@'" — everything after the first `'@'`, `none` when
the email has no `'@'`. -/
def partAfterAt (email : String) : Option String :=
  match email.data.dropWhile (fun c => ¬ c == '@') with
  | [] => none
  | _ :: rest => some (String.mk rest)

example : validateEmailDomain "a@gmail.com" = true := by decide
example : validateEmailDomain "nodomain" = false := by decide
example : validateEmailDomain "a@gmail.com@evil.com" = true := by decide
example : partAfterAt "a@gmail.com@evil.com" = some "gmail.com@evil.com" := by decide

/-- A user record of the Mongo `users` collection. -/
structure UserRec where
  email : String
  password : String
  phone : String
deriving DecidableEq, Repr

/-- `bcrypt.hash(password, 10)`, modelled as an opaque-format tagging
function (its output shape is irrelevant to every claim). -/
def bcryptHash (password : String) : String :=
  "bcrypt$" ++ password

/-- Response of `POST /api/auth/register`: the first three are HTTP 400,
`emailFailed` is HTTP 500 from the `sendMail` callback, `otpSent` is the
200 success. -/
inductive RegResp where
  | invalidPayload
  | domainRejected
  | userExists
  | emailFailed
  | otpSent
deriving DecidableEq, Repr

/-- `POST /api/auth/register` (server.js).  `emailField` is `none` when
the body's `email` is not a string; `otp` stands for the random 6-digit
code; `mailOk` is whether `transporter.sendMail` succeeds.  The OTP is
written to Redis (TTL 300) before mail is attempted. -/
def apiRegister (emailField : Option String) (otp : String) (mailOk : Bool)
    (users : List UserRec) (store : Store) : RegResp × Store :=
  match emailField with
  | none => (RegResp.invalidPayload, store)
  | some email =>
    if ¬ validateEmailDomain email then (RegResp.domainRejected, store)
    else if (users.find? (fun u => u.email == email)).isSome then (RegResp.userExists, store)
    else
      let store1 := rset store ("otp:" ++ email) ⟨otp, some 300⟩
      if mailOk then (RegResp.otpSent, store1) else (RegResp.emailFailed, store1)

/-- Response of `POST /api/auth/verify-register`: `invalidPayload` and
`invalidOtp` are HTTP 400, `saveError` is the failure of
`bcrypt.hash`/`newUser.save` (nothing after it runs), `created` is the
200 success carrying the new user's token. -/
inductive VerResp where
  | invalidPayload
  | invalidOtp
  | saveError
  | created
deriving DecidableEq, Repr

/-- `POST /api/auth/verify-register` (server.js).  `emailField`/`otpField`
are `none` when not strings; `saveFails` injects a thrown error from
`bcrypt.hash`/`newUser.save` (in which case neither the user append nor
the `redisClient.del` happens).  On an OTP match the user is saved first
and `otp:{email}` deleted afterwards. -/
def apiVerifyRegister (emailField otpField : Option String) (password phone : String)
    (saveFails : Bool) (users : List UserRec) (store : Store) :
    VerResp × List UserRec × Store :=
  match emailField, otpField with
  | some email, some otp =>
    if ¬ (rget store ("otp:" ++ email)).map (fun e => e.val) = some otp then
      (VerResp.invalidOtp, users, store)
    else if saveFails then (VerResp.saveError, users, store)
    else
      let users1 := users ++ [⟨email, bcryptHash password, phone⟩]
      let store1 := rdel store ("otp:" ++ email)
      (VerResp.created, users1, store1)
  | _, _ => (VerResp.invalidPayload, users, store)

/-- C2: the claim says `release(seat_id, user_id)` deletes `seat:{seat_id}`
only when its value is exactly `LOCKED:{user_id}` and otherwise changes
nothing.  The current `POST /api/release` (server.js) instead deletes the
key unconditionally: user 4's release destroys user 3's hold, and even a
`SOLD` marker is deleted — while the repository's own `RELEASE_SCRIPT`
(src/unnamed/part_001) implements exactly the claimed guard and leaves
the foreign hold in place. -/
theorem claimC2_release_eval :
    apiRelease [("seat:F6", ⟨"LOCKED:3", some 120⟩)] "F6" "4" = [] ∧
    apiRelease [("seat:G7", ⟨"SOLD", none⟩)] "G7" "9" = [] ∧
    apiReleaseScripted [("seat:F6", ⟨"LOCKED:3", some 120⟩)] "F6" "4"
      = [("seat:F6", ⟨"LOCKED:3", some 120⟩)] ∧
    apiReleaseScripted [("seat:F6", ⟨"LOCKED:3", some 120⟩)] "F6" "3" = [] := by
  decide

/-- C3: `hold` returns conflict whenever `seat:{seat_id}` exists — value
`SOLD` or any `LOCKED` entry, the caller's own included — leaving value
and TTL untouched; otherwise it creates `LOCKED:{user_id}` with TTL 300
and returns acquired. -/
theorem claimC3_hold (store : Store) (sid uid : String) :
    ((rget store ("seat:" ++ sid)).isSome →
      apiLock store sid uid = (LockResp.unavailable, store)) ∧
    (rget store ("seat:" ++ sid) = none →
      apiLock store sid uid
        = (LockResp.success, rset store ("seat:" ++ sid) ⟨"LOCKED:" ++ uid, some 300⟩)) := by
  constructor
  · intro h
    match hh : rget store ("seat:" ++ sid) with
    | none => rw [hh] at h; simp at h
    | some e =>
      by_cases hv : e.val = "SOLD" <;>
        simp [apiLock, lockScript, hh, hv]
  · intro h
    simp [apiLock, lockScript, h, REDIS_TTL]

/-- Witness for C3: a seat whose holder retries its own hold is refused
with no state change; a free seat is acquired with TTL 300. -/
theorem claimC3_witness :
    apiLock [("seat:A1", ⟨"LOCKED:9", some 120⟩)] "A1" "9"
      = (LockResp.unavailable, [("seat:A1", ⟨"LOCKED:9", some 120⟩)]) ∧
    apiLock [] "B2" "7" = (LockResp.success, [("seat:B2", ⟨"LOCKED:7", some 300⟩)]) :=
  ⟨(claimC3_hold [("seat:A1", ⟨"LOCKED:9", some 120⟩)] "A1" "9").1 (by decide),
   (claimC3_hold [] "B2" "7").2 (by decide)⟩

/-- C4: with no cached receipt, a purchase whose seat key does not hold
exactly `LOCKED:{token user}` answers 400 `Lock Expired or Stolen` and
writes nothing to the HSS or the DRS; the body's `userId` field (inside
`b`) plays no part. -/
theorem claimC4_pay_lock_guard (f : PayFaults) (tx u : String) (b : PayBody)
    (s : Store) (d : Drs)
    (hr : rget s ("receipt:" ++ b.idempotencyKey) = none)
    (hl : ¬ (rget s ("seat:" ++ b.seatId)).map (fun e => e.val)
            = some ("LOCKED:" ++ u)) :
    apiPay f tx u b s d = (PayResp.badLock, s, d) := by
  simp [apiPay, hr, hl]

/-- Witness for C4: the seat is held by user 7 and the body names user 7,
but the token belongs to user 42, so the purchase is refused with no
writes. -/
theorem claimC4_witness :
    apiPay ⟨false, false, false⟩ "t1" "42" ⟨"k99", "D4", some "7"⟩
        [("seat:D4", ⟨"LOCKED:7", some 100⟩)]
        [⟨"D4", "D", 4, "vip", 100, SeatStatus.available, none⟩]
      = (PayResp.badLock,
         [("seat:D4", ⟨"LOCKED:7", some 100⟩)],
         [⟨"D4", "D", 4, "vip", 100, SeatStatus.available, none⟩]) :=
  claimC4_pay_lock_guard ⟨false, false, false⟩ "t1" "42" ⟨"k99", "D4", some "7"⟩
    [("seat:D4", ⟨"LOCKED:7", some 100⟩)]
    [⟨"D4", "D", 4, "vip", 100, SeatStatus.available, none⟩]
    (by decide) (by decide)

/-- C7: the claim says the limiter key is the first element of the
forwarded-for list.  The code keys on the whole header string
(`req.headers['x-forwarded-for'] || req.ip`), so a multi-hop header is
used verbatim, not truncated to its first element. -/
theorem claimC7_counterexample :
    keyGenerator (some "1.2.3.4, 5.6.7.8") "9.9.9.9" = "1.2.3.4, 5.6.7.8" ∧
    xffFirstElem "1.2.3.4, 5.6.7.8" = "1.2.3.4" ∧
    ¬ keyGenerator (some "1.2.3.4, 5.6.7.8") "9.9.9.9"
        = xffFirstElem "1.2.3.4, 5.6.7.8" := by
  decide

/-- C7 amended: the token-bucket key is the entire forwarded-for header
value whenever that header is present and non-empty (the JavaScript `||`
treats an empty header as absent), and otherwise the TCP peer address. -/
theorem claimC7_amended (h ip : String) :
    keyGenerator (some h) ip = (if h = "" then ip else h) ∧
    keyGenerator none ip = ip :=
  ⟨rfl, rfl⟩

/-- C1: the claim says SOLD reaches the HSS only after the DRS commit,
so any failed or aborted DRS transaction leaves the `LOCKED:{user_id}`
hold in place.  In the code `redisClient.set(seatKey, "SOLD")` runs
before `session.commitTransaction()`: when the commit itself throws, the
transaction is aborted (the DRS record stays `available`) yet the HSS
already reads `SOLD`, not the original hold. -/
theorem claimC1_counterexample :
    apiPay ⟨false, false, true⟩ "t1" "u1" ⟨"k1", "A1", none⟩
        [("seat:A1", ⟨"LOCKED:u1", some 120⟩)]
        [⟨"A1", "A", 1, "vip", 100, SeatStatus.available, none⟩]
      = (PayResp.err,
         [("seat:A1", ⟨"SOLD", none⟩)],
         [⟨"A1", "A", 1, "vip", 100, SeatStatus.available, none⟩]) ∧
    ¬ (rget [("seat:A1", ⟨"SOLD", none⟩)] "seat:A1").map (fun e => e.val)
        = some "LOCKED:u1" := by
  decide

/-- C1 amended: in `purchase` the HSS seat key is set to SOLD between
the buffered save and the DRS commit.  When the seat lookup, the
double-booking check, or the save fails, the original `LOCKED:{user_id}`
hold and the DRS record are indeed both unchanged; but when the commit
itself fails, the aborted transaction leaves the DRS record unchanged
while the HSS already holds SOLD in place of the hold. -/
theorem claimC1_amended (f : PayFaults) (tx u : String) (b : PayBody)
    (s : Store) (d : Drs)
    (hr : rget s ("receipt:" ++ b.idempotencyKey) = none)
    (hl : (rget s ("seat:" ++ b.seatId)).map (fun e => e.val)
            = some ("LOCKED:" ++ u)) :
    (f.findFails = true → apiPay f tx u b s d = (PayResp.err, s, d)) ∧
    (f.findFails = false → drsFind d b.seatId = none →
      apiPay f tx u b s d = (PayResp.err, s, d)) ∧
    (∀ seat, f.findFails = false → drsFind d b.seatId = some seat →
      seat.status = SeatStatus.booked →
      apiPay f tx u b s d = (PayResp.err, s, d)) ∧
    (∀ seat, f.findFails = false → drsFind d b.seatId = some seat →
      ¬ seat.status = SeatStatus.booked → f.saveFails = true →
      apiPay f tx u b s d = (PayResp.err, s, d)) ∧
    (∀ seat, f.findFails = false → drsFind d b.seatId = some seat →
      ¬ seat.status = SeatStatus.booked → f.saveFails = false →
      f.commitFails = true →
      apiPay f tx u b s d
        = (PayResp.err, rset s ("seat:" ++ b.seatId) ⟨"SOLD", none⟩, d)) := by
  refine ⟨?_, ?_, ?_, ?_, ?_⟩
  · intro hf
    simp [apiPay, hr, hl, hf]
  · intro hf hfind
    simp [apiPay, hr, hl, hf, hfind]
  · intro seat hf hfind hbk
    simp [apiPay, hr, hl, hf, hfind, hbk]
  · intro seat hf hfind hbk hsv
    simp [apiPay, hr, hl, hf, hfind, hbk, hsv]
  · intro seat hf hfind hbk hsv hcm
    simp [apiPay, hr, hl, hf, hfind, hbk, hsv, hcm]

/-- Witness for C1 amended: a failing save keeps the hold and the DRS
record; a failing commit keeps the DRS record but leaves SOLD in the
HSS. -/
theorem claimC1_witness :
    apiPay ⟨false, true, false⟩ "t2" "u1" ⟨"k2", "B1", none⟩
        [("seat:B1", ⟨"LOCKED:u1", some 120⟩)]
        [⟨"B1", "B", 1, "vip", 100, SeatStatus.available, none⟩]
      = (PayResp.err,
         [("seat:B1", ⟨"LOCKED:u1", some 120⟩)],
         [⟨"B1", "B", 1, "vip", 100, SeatStatus.available, none⟩]) ∧
    apiPay ⟨false, false, true⟩ "t2" "u1" ⟨"k2", "B1", none⟩
        [("seat:B1", ⟨"LOCKED:u1", some 120⟩)]
        [⟨"B1", "B", 1, "vip", 100, SeatStatus.available, none⟩]
      = (PayResp.err,
         [("seat:B1", ⟨"SOLD", none⟩)],
         [⟨"B1", "B", 1, "vip", 100, SeatStatus.available, none⟩]) :=
  ⟨((claimC1_amended ⟨false, true, false⟩ "t2" "u1" ⟨"k2", "B1", none⟩
      [("seat:B1", ⟨"LOCKED:u1", some 120⟩)]
      [⟨"B1", "B", 1, "vip", 100, SeatStatus.available, none⟩]
      (by decide) (by decide)).2.2.2.1
      ⟨"B1", "B", 1, "vip", 100, SeatStatus.available, none⟩
      (by decide) (by decide) (by decide) (by decide)),
   ((claimC1_amended ⟨false, false, true⟩ "t2" "u1" ⟨"k2", "B1", none⟩
      [("seat:B1", ⟨"LOCKED:u1", some 120⟩)]
      [⟨"B1", "B", 1, "vip", 100, SeatStatus.available, none⟩]
      (by decide) (by decide)).2.2.2.2
      ⟨"B1", "B", 1, "vip", 100, SeatStatus.available, none⟩
      (by decide) (by decide) (by decide) (by decide) (by decide))⟩

/-- Helper: a successful purchase always leaves its response body stored
under `receipt:{idempotency_key}` — either it returned the cached
receipt, or it just wrote the fresh one. -/
theorem pay_ok_receipt (f : PayFaults) (tx u : String) (b : PayBody)
    (s : Store) (d : Drs) (r : String) (s' : Store) (d' : Drs)
    (h : apiPay f tx u b s d = (PayResp.ok r, s', d')) :
    (rget s' ("receipt:" ++ b.idempotencyKey)).map (fun e => e.val) = some r := by
  match hc : rget s ("receipt:" ++ b.idempotencyKey) with
  | some cached =>
    simp only [apiPay, hc] at h
    simp at h
    obtain ⟨h1, h2, h3⟩ := h
    subst h2
    rw [hc, ← h1]
    rfl
  | none =>
    simp only [apiPay, hc] at h
    by_cases hl : (rget s ("seat:" ++ b.seatId)).map (fun e => e.val)
        = some ("LOCKED:" ++ u)
    · simp only [hl, not_true, if_false, ite_false] at h
      by_cases hf : f.findFails
      · simp [hf] at h
      · simp only [hf, Bool.false_eq_true, if_false, ite_false] at h
        match hfind : drsFind d b.seatId with
        | none => rw [hfind] at h; simp at h
        | some seat =>
          rw [hfind] at h
          by_cases hbk : seat.status = SeatStatus.booked
          · simp [hbk] at h
          · simp only [hbk, if_false, ite_false] at h
            by_cases hsv : f.saveFails
            · simp [hsv] at h
            · simp only [hsv, Bool.false_eq_true, if_false, ite_false] at h
              by_cases hcm : f.commitFails
              · simp [hcm] at h
              · simp only [hcm, Bool.false_eq_true, if_false, ite_false,
                  Prod.mk.injEq, PayResp.ok.injEq] at h
                obtain ⟨h1, h2, h3⟩ := h
                subst h2
                rw [← h1]
                simp [rget, rset, List.find?]
    · rw [if_pos hl] at h
      simp at h

/-- C5: a purchase that finds `receipt:{idempotency_key}` already cached
returns exactly the stored receipt and changes neither the HSS nor the
DRS; consequently, of two back-to-back successful purchases with the
same idempotency key, the second returns the very body the first one
did. -/
theorem claimC5_idempotency :
    (∀ (f : PayFaults) (tx u : String) (b : PayBody) (s : Store) (d : Drs)
        (e : HEntry),
      rget s ("receipt:" ++ b.idempotencyKey) = some e →
      apiPay f tx u b s d = (PayResp.ok e.val, s, d)) ∧
    (∀ (f1 f2 : PayFaults) (tx1 tx2 u1 u2 : String) (b1 b2 : PayBody)
        (s0 : Store) (d0 : Drs) (r1 r2 : String) (s1 s2 : Store) (d1 d2 : Drs),
      b1.idempotencyKey = b2.idempotencyKey →
      apiPay f1 tx1 u1 b1 s0 d0 = (PayResp.ok r1, s1, d1) →
      apiPay f2 tx2 u2 b2 s1 d1 = (PayResp.ok r2, s2, d2) →
      r2 = r1) := by
  constructor
  · intro f tx u b s d e he
    simp [apiPay, he]
  · intro f1 f2 tx1 tx2 u1 u2 b1 b2 s0 d0 r1 r2 s1 s2 d1 d2 hk h1 h2
    have hstored := pay_ok_receipt f1 tx1 u1 b1 s0 d0 r1 s1 d1 h1
    rw [hk] at hstored
    match he : rget s1 ("receipt:" ++ b2.idempotencyKey) with
    | none => rw [he] at hstored; simp at hstored
    | some e =>
      rw [he] at hstored
      simp at hstored
      simp only [apiPay, he] at h2
      simp at h2
      rw [← h2.1, hstored]

/-- Witness for C5: with a receipt already cached under `receipt:k1`,
the purchase returns that receipt verbatim and leaves both stores
untouched. -/
theorem claimC5_witness :
    apiPay ⟨false, false, false⟩ "t9" "u9" ⟨"k1", "A1", none⟩
        [("receipt:k1", ⟨"RCPT", some 500⟩)] []
      = (PayResp.ok "RCPT", [("receipt:k1", ⟨"RCPT", some 500⟩)], []) :=
  claimC5_idempotency.1 ⟨false, false, false⟩ "t9" "u9" ⟨"k1", "A1", none⟩
    [("receipt:k1", ⟨"RCPT", some 500⟩)] [] ⟨"RCPT", some 500⟩ (by decide)

/-- C6: the claim says a DRS-booked seat is reported `booked` regardless
of the HSS, in particular under a stale `LOCKED:{user}` entry.  In the
snapshot code the Redis overlay runs unconditionally, so a `LOCKED:`
value overrides the Mongo status: with DRS `booked` and HSS
`LOCKED:5`, the seat is reported `locked`, not `booked`. -/
theorem claimC6_counterexample :
    apiSeats [("seat:A1", ⟨"LOCKED:5", some 100⟩)]
        [⟨"A1", "A", 1, "vip", 100, SeatStatus.booked, some "5"⟩]
      = [⟨"A1", "A", 1, "vip", 100, "locked", LockedBy.num 5, some 100⟩] ∧
    ¬ ("locked" : String) = "booked" := by
  decide

/-- C6 amended: a DRS-booked seat is reported `booked` when the HSS has
no entry for it, a `SOLD` entry, or any value not starting with
`LOCKED:`; but a `LOCKED:` entry in the HSS overrides the DRS record,
so a stale hold makes the snapshot report `locked`. -/
theorem claimC6_amended (store : Store) (seat : SeatRec)
    (hb : seat.status = SeatStatus.booked) :
    (lookupLast (redisSeatData store) seat.seatId = none →
      (seatView store seat).state = "booked") ∧
    (∀ e, lookupLast (redisSeatData store) seat.seatId = some e →
      e.val = "SOLD" → (seatView store seat).state = "booked") ∧
    (∀ e, lookupLast (redisSeatData store) seat.seatId = some e →
      ¬ e.val = "SOLD" → jsStartsWith e.val "LOCKED:" = false →
      (seatView store seat).state = "booked") ∧
    (∀ e, lookupLast (redisSeatData store) seat.seatId = some e →
      ¬ e.val = "SOLD" → jsStartsWith e.val "LOCKED:" = true →
      (seatView store seat).state = "locked") := by
  refine ⟨?_, ?_, ?_, ?_⟩
  · intro h
    simp [seatView, h, statusStr, hb]
  · intro e h hv
    simp [seatView, h, hv]
  · intro e h hv hp
    simp [seatView, h, hv, hp, statusStr, hb]
  · intro e h hv hp
    simp [seatView, h, hv, hp]

/-- Witness for C6 amended: a booked seat with a SOLD overlay stays
`booked`; the same seat under a stale `LOCKED:5` overlay flips to
`locked`. -/
theorem claimC6_witness :
    (seatView [("seat:A1", ⟨"SOLD", none⟩)]
        ⟨"A1", "A", 1, "vip", 100, SeatStatus.booked, some "5"⟩).state = "booked" ∧
    (seatView [("seat:A1", ⟨"LOCKED:5", some 100⟩)]
        ⟨"A1", "A", 1, "vip", 100, SeatStatus.booked, some "5"⟩).state = "locked" :=
  ⟨(claimC6_amended [("seat:A1", ⟨"SOLD", none⟩)]
      ⟨"A1", "A", 1, "vip", 100, SeatStatus.booked, some "5"⟩ (by decide)).2.1
      ⟨"SOLD", none⟩ (by decide) (by decide),
   (claimC6_amended [("seat:A1", ⟨"LOCKED:5", some 100⟩)]
      ⟨"A1", "A", 1, "vip", 100, SeatStatus.booked, some "5"⟩ (by decide)).2.2.2
      ⟨"LOCKED:5", some 100⟩ (by decide) (by decide) (by decide)⟩

/-- C8: the claim says registration is refused (HTTP 400, no OTP) unless
the part of the email after the `'@'` is exactly an allowed domain.  The
code checks `email.split('@')[1]`, the segment between the first and
second `'@'`: for `a@gmail.com@evil.com` that segment is `gmail.com`,
so the request passes the check and an OTP is stored, although the part
of the email after the `'@'` is `gmail.com@evil.com`, which is no
allowed domain. -/
theorem claimC8_counterexample :
    partAfterAt "a@gmail.com@evil.com" = some "gmail.com@evil.com" ∧
    allowedDomains.any (fun a => a == "gmail.com@evil.com") = false ∧
    validateEmailDomain "a@gmail.com@evil.com" = true ∧
    apiRegister (some "a@gmail.com@evil.com") "123456" true [] []
      = (RegResp.otpSent, [("otp:a@gmail.com@evil.com", ⟨"123456", some 300⟩)]) := by
  decide

/-- C8 amended: registration is refused with HTTP 400 and no stored OTP
unless the second element of splitting the email on `'@'` (for a
single-`'@'` address, the part after the `'@'`) is exactly one of the
five allowed domains; in particular any email without an `'@'` is
rejected. -/
theorem claimC8_amended (email otp : String) (mailOk : Bool)
    (users : List UserRec) (store : Store)
    (h : ∀ d, (jsSplit email '@').get? 1 = some d →
          allowedDomains.any (fun a => a == d) = false) :
    apiRegister (some email) otp mailOk users store = (RegResp.domainRejected, store) := by
  have hv : validateEmailDomain email = false := by
    unfold validateEmailDomain
    match hd : (jsSplit email '@').get? 1 with
    | none => rfl
    | some d => exact h d hd
  simp [apiRegister, hv]

/-- Witness for C8 amended: an address on an unlisted domain is turned
away with no state change. -/
theorem claimC8_witness :
    apiRegister (some "user@example.org") "111111" true [] []
      = (RegResp.domainRejected, []) :=
  claimC8_amended "user@example.org" "111111" true [] []
    (by
      intro d hd
      have he : (jsSplit "user@example.org" '@').get? 1 = some "example.org" := by decide
      rw [he] at hd
      cases hd
      decide)

/-- C9: a verify-register call whose submitted OTP differs from the
stored `otp:{email}` value (or finds none stored) answers 400 with no
user created and the OTP key intact; the key is deleted exactly in the
branch that has just created the user record, and a failing
hash/save leaves both stores untouched. -/
theorem claimC9_verify_otp (email otp password phone : String) (saveFails : Bool)
    (users : List UserRec) (store : Store) :
    (¬ (rget store ("otp:" ++ email)).map (fun e => e.val) = some otp →
      apiVerifyRegister (some email) (some otp) password phone saveFails users store
        = (VerResp.invalidOtp, users, store)) ∧
    ((rget store ("otp:" ++ email)).map (fun e => e.val) = some otp →
      saveFails = false →
      apiVerifyRegister (some email) (some otp) password phone saveFails users store
        = (VerResp.created, users ++ [⟨email, bcryptHash password, phone⟩],
           rdel store ("otp:" ++ email))) ∧
    ((rget store ("otp:" ++ email)).map (fun e => e.val) = some otp →
      saveFails = true →
      apiVerifyRegister (some email) (some otp) password phone saveFails users store
        = (VerResp.saveError, users, store)) := by
  refine ⟨?_, ?_, ?_⟩
  · intro hm
    simp [apiVerifyRegister, hm]
  · intro hm hs
    simp [apiVerifyRegister, hm, hs]
  · intro hm hs
    simp [apiVerifyRegister, hm, hs]

/-- Witness for C9: a wrong OTP leaves the stored code and the user list
unchanged; the right OTP creates the user and deletes the code. -/
theorem claimC9_witness :
    apiVerifyRegister (some "a@gmail.com") (some "999999") "pw" "ph" false []
        [("otp:a@gmail.com", ⟨"123456", some 200⟩)]
      = (VerResp.invalidOtp, [], [("otp:a@gmail.com", ⟨"123456", some 200⟩)]) ∧
    apiVerifyRegister (some "a@gmail.com") (some "123456") "pw" "ph" false []
        [("otp:a@gmail.com", ⟨"123456", some 200⟩)]
      = (VerResp.created, [⟨"a@gmail.com", bcryptHash "pw", "ph"⟩], []) :=
  ⟨(claimC9_verify_otp "a@gmail.com" "999999" "pw" "ph" false []
      [("otp:a@gmail.com", ⟨"123456", some 200⟩)]).1 (by decide),
   (claimC9_verify_otp "a@gmail.com" "123456" "pw" "ph" false []
      [("otp:a@gmail.com", ⟨"123456", some 200⟩)]).2.1 (by decide) rfl⟩

/-- C10: the claim says `lockedBy` is `NaN` for every holder id not
starting with a decimal digit.  JavaScript `parseInt` also consumes a
leading sign: a hold taken with user id `+5` (reachable through the
body-supplied `userId` of `POST /api/lock` in src/unnamed/part_001)
yields `lockedBy = 5`, a number, not `NaN`. -/
theorem claimC10_counterexample :
    (apiLock [] "A1" "+5").2 = [("seat:A1", ⟨"LOCKED:+5", some 300⟩)] ∧
    ("+5".data.head? = some '+' ∧ ('+' : Char).isDigit = false) ∧
    seatView [("seat:A1", ⟨"LOCKED:+5", some 300⟩)]
        ⟨"A1", "A", 1, "vip", 100, SeatStatus.available, none⟩
      = ⟨"A1", "A", 1, "vip", 100, "locked", LockedBy.num 5, some 300⟩ ∧
    ¬ LockedBy.num 5 = LockedBy.nan := by
  decide

/-- C10 amended: for every seat reported `locked`, `lockedBy` is the
JavaScript `parseInt` of the segment after the first `':'` of the stored
value (the holder id), and that parse is `NaN` for every holder id that
is empty or begins with a character other than a decimal digit, a sign
(`'+'`/`'-'`), or whitespace — in particular for a hexadecimal object id
starting with a letter, so the snapshot does not round-trip the holder
identity. -/
theorem claimC10_amended :
    (∀ (store : Store) (seat : SeatRec) (e : HEntry),
      lookupLast (redisSeatData store) seat.seatId = some e →
      ¬ e.val = "SOLD" → jsStartsWith e.val "LOCKED:" = true →
      (seatView store seat).lockedBy
        = lockedByOf (parseIntJS ((jsSplit e.val ':').getD 1 ""))) ∧
    (∀ (s : String) (c : Char), s.data.head? = some c →
      c.isDigit = false → ¬ c = '+' → ¬ c = '-' → jsWhite c = false →
      parseIntJS s = none) := by
  constructor
  · intro store seat e h hv hp
    simp [seatView, h, hv, hp]
  · intro s c hh hd hp hm hw
    have h0 : ¬ c = '0' := by
      intro h
      subst h
      simp [Char.isDigit] at hd
    match hs : s.data with
    | [] => rw [hs] at hh; simp at hh
    | c0 :: t =>
      rw [hs] at hh
      simp at hh
      subst hh
      have hdw : (c0 :: t).dropWhile jsWhite = c0 :: t := by
        simp [List.dropWhile_cons, hw]
      have hss : stripSign (c0 :: t) = (1, c0 :: t) := by
        simp [stripSign, hp, hm]
      have hsr : stripRadix (c0 :: t) = (10, c0 :: t) := by
        cases t with
        | nil => rfl
        | cons c1 t' =>
          show (if c0 = '0' ∧ (c1 = 'x' ∨ c1 = 'X') then ((16 : Nat), t')
                else ((10 : Nat), c0 :: c1 :: t')) = ((10 : Nat), c0 :: c1 :: t')
          rw [if_neg]
          intro hand
          exact h0 hand.1
      have htw : (c0 :: t).takeWhile (isRadixDigit 10) = [] := by
        simp [List.takeWhile_cons, isRadixDigit, hd]
      simp only [parseIntJS, hs, hdw, hss, hsr, htw, List.isEmpty_nil, if_true]

/-- Witness for C10 amended: a hold by the hexadecimal object id
`66f1a2b3c4d5e6f7a8b9c0d1` is reported with `lockedBy = NaN`. -/
theorem claimC10_witness :
    (seatView [("seat:A1", ⟨"LOCKED:66f1a2b3c4d5e6f7a8b9c0d1", some 250⟩)]
        ⟨"A1", "A", 1, "vip", 100, SeatStatus.available, none⟩).lockedBy
      = lockedByOf (parseIntJS "66f1a2b3c4d5e6f7a8b9c0d1") ∧
    parseIntJS "a2b3" = none :=
  ⟨by
    have h := claimC10_amended.1
      [("seat:A1", ⟨"LOCKED:66f1a2b3c4d5e6f7a8b9c0d1", some 250⟩)]
      ⟨"A1", "A", 1, "vip", 100, SeatStatus.available, none⟩
      ⟨"LOCKED:66f1a2b3c4d5e6f7a8b9c0d1", some 250⟩
      (by decide) (by decide) (by decide)
    rw [h]
    rfl,
   claimC10_amended.2 "a2b3" 'a' (by decide) (by decide) (by decide)
     (by decide) (by decide)⟩
